import Mathlib

/-!
Verification development for the Hexabot WhatsApp channel adapter.

This file is a shallow embedding, in Lean 4, of the channel adapter sources:

* `src/unnamed/part_005` (first document): `WhatsAppEventWrapper`, the inbound
  classifier/normalizer (`_init`, `getId`, `getPayload`, `getMessage`,
  `getDeliveredMessages`, `getSenderForeignId`, `serializeContactsToText`);
* `src/index.channel.ts`: `WhatsAppHandler` (the outbound translator
  `_formatMessage` with its per-format helpers and `truncateText`, the
  signature-verification `middleware` / `_verifySignature`, the webhook
  validation `_validateMessage`, and the `handle` dispatch loop);
* `src/types.ts`: the `WhatsApp.Webhook` / `WhatsApp.Messages` wire shapes.

Conventions of the embedding:

* TypeScript strings are Lean `String` (a wrapper of `List Char`); array and
  string operations are mapped to their list counterparts.
* JavaScript `undefined`-able values are `Option`; a thrown JavaScript
  exception is `Except.error` with the message text; a function that can
  only throw by way of a runtime `TypeError` (an access on `undefined`)
  returns `Except` as well.
* Host-engine (hexabot core) types that this adapter merely consumes - the
  standard event/message enums, the attachment schema, the outgoing envelope
  shapes - are not part of this repository; they are modelled from the spec
  and from their use sites in the adapter, and are marked as such.
* External collaborators (the i18n translator, the public-URL resolver, the
  HMAC primitive of the node crypto module, the event bus) are parameters of
  the embedded functions.
-/

namespace WhatsAppChannel

/-! ### JavaScript primitives used by the sources -/

/-- Truthiness of a possibly-`undefined` JavaScript string: `undefined` and
the empty string are falsy. -/
def strTruthy : Option String → Bool
  | some s => s ≠ ""
  | none => false

/-- The JavaScript expression `a || b` for `a b : string | undefined`:
returns `a` when `a` is truthy (present and nonempty), otherwise `b`. -/
def jsOrOpt (a b : Option String) : Option String :=
  match a with
  | some s => if s = "" then b else some s
  | none => b

/-- Split a character list on a separator character; mirrors the behaviour of
the JavaScript `String.prototype.split` with a one-character separator. -/
def splitChars (sep : Char) : List Char → List (List Char)
  | [] => [[]]
  | c :: cs =>
    let rest := splitChars sep cs
    if c = sep then [] :: rest
    else
      match rest with
      | r :: rs => (c :: r) :: rs
      | [] => [[c]]

/-- JavaScript `s.split(sep)` for a single-character separator. -/
def jsSplit (s : String) (sep : Char) : List String :=
  (splitChars sep s.data).map String.mk

/-! ### Host-engine types (hexabot core, not part of this repository)

Modelled from the spec: the standard event representation of the host chat
engine (`@/chat/schemas/types/message`, `@/chat/schemas/types/quick-reply`,
`@/attachment/schemas/attachment.schema`) that the adapter consumes. -/

/-- Modelled from the spec: the host event-type enum `StdEventType`
(`{ eventType: message|delivery|read|unknown, ... }`). The host enum is
string-valued; `unknown` is the falsy member, which is how the dispatch loop
in `handle` distinguishes emittable events from unknown ones. -/
inductive StdEventType
  | message
  | delivery
  | read
  | echo
  | unknown
deriving DecidableEq, Repr

/-- The string value of a `StdEventType` member, used to build the hook name
`hook:chatbot:<type>`; `unknown` is the empty string. -/
def StdEventType.str : StdEventType → String
  | .message => "message"
  | .delivery => "delivery"
  | .read => "read"
  | .echo => "echo"
  | .unknown => ""

/-- JavaScript truthiness of a `StdEventType` value (`if (type) ...` in the
dispatch loop): exactly the `unknown` member (the empty string) is falsy. -/
def StdEventType.jsTruthy (t : StdEventType) : Bool :=
  t.str ≠ ""

/-- Modelled from the spec: the host incoming-message subtype enum
`IncomingMessageType` (`messageSubtype: plain-text|attachment|postback|
location|unknown`). -/
inductive IncomingMessageType
  | message
  | postback
  | location
  | attachments
  | unknown
deriving DecidableEq, Repr

/-- Modelled from the spec: the host generic file-kind enum `FileType`
(`file` maps to the wire kind `document`; kinds outside
image/audio/video/file are unsupported by the outbound translator). -/
inductive FileType
  | image
  | audio
  | video
  | file
  | unknown
deriving DecidableEq, Repr

/-- String value of a host file kind (the TypeScript enum is string-valued). -/
def FileType.str : FileType → String
  | .image => "image"
  | .audio => "audio"
  | .video => "video"
  | .file => "file"
  | .unknown => "unknown"

/-- Modelled from the spec: the host stored-attachment schema `Attachment`
(the fields the adapter reads: the stored id, the file name, and the MIME
type held in the field named `type`). -/
structure Attachment where
  id : String
  name : String
  type : String
deriving DecidableEq, Repr

/-- Modelled from the spec: the host helper `Attachment.getTypeByMime`,
resolving a MIME type to the generic file kind by its major type prefix
(the prefix test is embedded at the character level). -/
def getTypeByMime (mime : String) : FileType :=
  if "image".data.isPrefixOf mime.data then .image
  else if "audio".data.isPrefixOf mime.data then .audio
  else if "video".data.isPrefixOf mime.data then .video
  else .file

/-- Modelled from the spec: the normalized payload returned by
`getPayload()` - a plain postback string, location coordinates, or an
attachment reference (`{type: PayloadType..., ...}` in the host schema). -/
inductive PayloadResult
  | str (s : String)
  | locationPayload (lat lon : Int)
  | attachmentsPayload (attachmentType : FileType) (attachmentId : String)
deriving DecidableEq, Repr

/-- Modelled from the spec: the host canonical stored-message shape
`StdIncomingMessage` as produced by `getMessage()`. The postback variant
carries possibly-`undefined` fields because the source builds them with
optional chaining. -/
inductive StdIncomingMessage
  | textIn (text : String)
  | postbackIn (postback : Option String) (text : Option String)
  | locationIn (lat lon : Int)
  | attachmentsIn (serialized_text : String) (attachmentType : FileType)
      (attachmentId : String)
deriving DecidableEq, Repr

/-! ### Wire types (src/types.ts, namespace WhatsApp.Webhook) -/

namespace Webhook

/-- `WhatsApp.Webhook.Media`: an inbound media reference. -/
structure Media where
  caption : Option String := none
  filename : Option String := none
  id : String
  mime_type : String
  sha256 : String := ""
deriving DecidableEq, Repr

/-- Button-reply object of an inbound interactive message. -/
structure ButtonReply where
  id : String
  title : String
deriving DecidableEq, Repr

/-- List-reply object of an inbound interactive message. -/
structure ListReply where
  id : String
  title : String
  description : String := ""
deriving DecidableEq, Repr

/-- `WhatsApp.Webhook.Interactive`: the reply carried by an inbound
interactive message; both reply objects are optional in the wire type. -/
structure Interactive where
  type : String
  button_reply : Option ButtonReply := none
  list_reply : Option ListReply := none
deriving DecidableEq, Repr

/-- `WhatsApp.Webhook.Button`: the payload of an inbound template-button
response. -/
structure Button where
  payload : String
  text : String
deriving DecidableEq, Repr

/-- `WhatsApp.Messages.Location` as received in a location message.
Coordinates are modelled as integers; no claim depends on their arithmetic. -/
structure WebLocation where
  longitude : Int
  latitude : Int
  name : Option String := none
  address : Option String := none
deriving DecidableEq, Repr

/-- `WhatsApp.Messages.Name` of a shared contact. -/
structure ContactName where
  formatted_name : String
  first_name : Option String := none
  last_name : Option String := none
  middle_name : Option String := none
  suffix : Option String := none
  prefix_ : Option String := none
deriving DecidableEq, Repr

/-- `WhatsApp.Messages.Organization` of a shared contact. -/
structure ContactOrg where
  company : Option String := none
  department : Option String := none
  title : Option String := none
deriving DecidableEq, Repr

/-- `WhatsApp.Messages.Email` of a shared contact. -/
structure ContactEmail where
  email : Option String := none
  type : Option String := none
deriving DecidableEq, Repr

/-- `WhatsApp.Messages.Phone` of a shared contact. -/
structure ContactPhone where
  phone : Option String := none
  type : Option String := none
  wa_id : Option String := none
deriving DecidableEq, Repr

/-- `WhatsApp.Messages.Address` of a shared contact. -/
structure ContactAddress where
  street : Option String := none
  city : Option String := none
  state : Option String := none
  zip : Option String := none
  country : Option String := none
  country_code : Option String := none
  type : Option String := none
deriving DecidableEq, Repr

/-- `WhatsApp.Messages.Contact`: one shared contact card. The url entries
are reduced to their url strings, which is all the serializer prints. -/
structure SharedContact where
  name : ContactName
  birthday : Option String := none
  org : Option ContactOrg := none
  emails : List ContactEmail := []
  phones : List ContactPhone := []
  addresses : List ContactAddress := []
  urls : List String := []
deriving DecidableEq, Repr

/-- The base fields shared by every inbound message
(`WhatsApp.Webhook.BaseMessage`); `from` is a Lean keyword and is embedded
as `msg_from`. -/
structure MsgBase where
  msg_from : String
  id : String
  timestamp : String
deriving DecidableEq, Repr

/-- `WhatsApp.Webhook.Message`: the discriminated union of inbound message
shapes, one constructor per value of the `type` tag
(`WhatsApp.Webhook.MessageType`); the one-field text object `{body}` is
reduced to its body string. The tags `order`, `system`, `reaction` and
`unknown` carry no payload the adapter reads. -/
inductive Message
  | text (base : MsgBase) (text : String)
  | image (base : MsgBase) (image : Media)
  | audio (base : MsgBase) (audio : Media)
  | video (base : MsgBase) (video : Media)
  | document (base : MsgBase) (document : Media)
  | sticker (base : MsgBase) (sticker : Media)
  | interactive (base : MsgBase) (interactive : Interactive)
  | button (base : MsgBase) (button : Button)
  | location (base : MsgBase) (location : WebLocation)
  | contacts (base : MsgBase) (contacts : List SharedContact)
  | order (base : MsgBase)
  | system (base : MsgBase)
  | reaction (base : MsgBase)
  | unknownType (base : MsgBase)
deriving DecidableEq, Repr

/-- The base fields of an inbound message. -/
def Message.base : Message → MsgBase
  | .text b _ => b
  | .image b _ => b
  | .audio b _ => b
  | .video b _ => b
  | .document b _ => b
  | .sticker b _ => b
  | .interactive b _ => b
  | .button b _ => b
  | .location b _ => b
  | .contacts b _ => b
  | .order b => b
  | .system b => b
  | .reaction b => b
  | .unknownType b => b

/-- `WhatsApp.Webhook.Status`: a delivery-status unit. The `status` field is
the raw wire string (`read`, `delivered`, `sent`, `failed`, `deleted`, or
anything else an untrusted notification carries); the optional
conversation/pricing/error details are never consulted by the adapter and
are omitted. -/
structure Status where
  id : String
  recipient_id : String
  status : String
  timestamp : String
deriving DecidableEq, Repr

/-- `WhatsApp.Webhook.Metadata`: the business phone number and its id. -/
structure Metadata where
  display_phone_number : String
  phone_number_id : String
deriving DecidableEq, Repr

/-- `WhatsApp.Webhook.Contact`: an inbound contact-profile record; the
nested `profile` object is reduced to its `name` string (the contact
lookup in `handle` only reads `wa_id`). -/
structure WebContact where
  name : String
  wa_id : String
deriving DecidableEq, Repr

/-- `WhatsApp.Webhook.Value`: the per-change payload; `contacts`, `messages`
and `statuses` are optional in the wire type. -/
structure Value where
  metadata : Metadata
  contacts : Option (List WebContact) := none
  messages : Option (List Message) := none
  statuses : Option (List Status) := none
deriving DecidableEq, Repr

/-- `WhatsApp.Webhook.Change`. -/
structure Change where
  value : Value
deriving DecidableEq, Repr

/-- `WhatsApp.Webhook.Entry`. -/
structure Entry where
  changes : List Change
deriving DecidableEq, Repr

/-- `WhatsApp.Webhook.Notification`: the top-level POST body. The `entry`
field is optional because `handle` guards on `'entry' in data` before using
it (the body of an untrusted request may lack it). -/
structure Notification where
  object : String
  entry : Option (List Entry) := none
deriving DecidableEq, Repr

end Webhook

/-- `WhatsApp.Event = Webhook.Message | Webhook.Status`: the unit a wrapper
instance is built over. `_init` discriminates on `'status' in event`. -/
inductive Event
  | message (m : Webhook.Message)
  | status (s : Webhook.Status)
deriving DecidableEq, Repr

/-- The id of the underlying unit (`getId()` reads `this._adapter.raw.id`). -/
def Event.eventId : Event → String
  | .message m => m.base.id
  | .status s => s.id

/-! ### The event wrapper (src/unnamed/part_005, class WhatsAppEventWrapper) -/

/-- The `_adapter` record of `WhatsAppEventWrapper`: the classified event
type, the message subtype when one was assigned, the raw event, and the
stored attachment once an external collaborator has resolved the media
reference (`attachment` is unset right after `_init`). -/
structure Adapter where
  eventType : StdEventType
  messageType : Option IncomingMessageType
  raw : Event
  attachment : Option Attachment := none
deriving DecidableEq, Repr

/-- One line of the form `label: value`; helper for the contact serializer. -/
def contactLine (label value : String) : String :=
  label ++ ": " ++ value

/-- JavaScript `x || 'N/A'` on an optional string (used by the serializer
for possibly-missing contact fields). -/
def orNA (x : Option String) : String :=
  match x with
  | some s => if s = "" then "N/A" else s
  | none => "N/A"

/-- Lines contributed by one shared contact
(`serializeContactsToText`, per-contact body of the `reduce`). -/
def contactLines (contact : Webhook.SharedContact) : List String :=
  [contactLine "Name" contact.name.formatted_name]
    ++ (match contact.name.first_name with
        | some v => if v = "" then [] else [contactLine "  First Name" v]
        | none => [])
    ++ (match contact.name.last_name with
        | some v => if v = "" then [] else [contactLine "  Last Name" v]
        | none => [])
    ++ (match contact.name.middle_name with
        | some v => if v = "" then [] else [contactLine "  Middle Name" v]
        | none => [])
    ++ (match contact.name.prefix_ with
        | some v => if v = "" then [] else [contactLine "  Prefix" v]
        | none => [])
    ++ (match contact.name.suffix with
        | some v => if v = "" then [] else [contactLine "  Suffix" v]
        | none => [])
    ++ (match contact.birthday with
        | some v => if v = "" then [] else [contactLine "Birthday" v]
        | none => [])
    ++ (match contact.org with
        | some o =>
          ["Organization:"]
            ++ (match o.company with
                | some v => if v = "" then [] else [contactLine "  Company" v]
                | none => [])
            ++ (match o.department with
                | some v => if v = "" then [] else [contactLine "  Department" v]
                | none => [])
            ++ (match o.title with
                | some v => if v = "" then [] else [contactLine "  Title" v]
                | none => [])
        | none => [])
    ++ (if contact.emails.isEmpty then []
        else "Emails:" :: contact.emails.map fun e =>
          "  - Email: " ++ orNA e.email ++ ", Type: " ++ orNA e.type)
    ++ (if contact.phones.isEmpty then []
        else "Phones:" :: contact.phones.map fun p =>
          "  - Phone: " ++ orNA p.phone ++ ", Type: " ++ orNA p.type
            ++ ", WhatsApp ID: " ++ orNA p.wa_id)
    ++ (if contact.addresses.isEmpty then []
        else "Addresses:" :: contact.addresses.map fun a =>
          "  - Street: " ++ orNA a.street ++ ", City: " ++ orNA a.city
            ++ ", State: " ++ orNA a.state ++ ", ZIP: " ++ orNA a.zip
            ++ ", Country: " ++ orNA a.country ++ ", Country Code: "
            ++ orNA a.country_code ++ ", Type: " ++ orNA a.type)
    ++ (if contact.urls.isEmpty then []
        else "URLs:" :: contact.urls.map fun u => "  - " ++ u)

/-- `serializeContactsToText`: serialize the shared contacts into one
human-readable text (newline-joined lines per contact, a blank line between
contacts, trailing whitespace trimmed). -/
def serializeContactsToText (contacts : List Webhook.SharedContact) : String :=
  (contacts.foldl
    (fun result contact =>
      result ++ String.intercalate "\n" (contactLines contact) ++ "\n\n")
    "").trim

/-- `_init`: classify one raw event. A status unit gets `delivery`, `read`
or `unknown` by its `status` string and no message subtype; a message unit
gets `eventType = message` and a subtype from its `type` tag, except that an
unrecognized tag downgrades `eventType` to `unknown` with no subtype. A
contacts message falls through the `text` case after a text body serialized
from the contact cards has been tacked onto it, so its stored raw event is
embedded as the resulting text-carrying message. -/
def _init : Event → Adapter
  | .status s =>
    { eventType :=
        if s.status = "delivered" then .delivery
        else if s.status = "read" then .read
        else .unknown
      messageType := none
      raw := .status s }
  | .message m =>
    match m with
    | .contacts base cs =>
      { eventType := .message
        messageType := some .message
        raw := .message (.text base (serializeContactsToText cs)) }
    | .text .. =>
      { eventType := .message, messageType := some .message, raw := .message m }
    | .image .. | .audio .. | .video .. | .document .. | .sticker .. =>
      { eventType := .message
        messageType := some .attachments
        raw := .message m }
    | .button .. | .interactive .. =>
      { eventType := .message, messageType := some .postback, raw := .message m }
    | .location .. =>
      { eventType := .message, messageType := some .location, raw := .message m }
    | .order .. | .system .. | .reaction .. | .unknownType .. =>
      { eventType := .unknown, messageType := none, raw := .message m }

/-- The postback id extracted by `getPayload()` from an interactive reply:
the source expression `event.interactive.button_reply?.id ||
event.interactive.list_reply.id`. Note the unguarded access on the right:
when the left side is falsy (button reply absent, or its id the empty
string) and no list reply is present, the access throws a `TypeError`. -/
def interactivePayloadId (i : Webhook.Interactive) : Except String String :=
  match i.button_reply with
  | some br =>
    if br.id = "" then
      match i.list_reply with
      | some lr => .ok lr.id
      | none => .error "TypeError: Cannot read properties of undefined"
    else .ok br.id
  | none =>
    match i.list_reply with
    | some lr => .ok lr.id
    | none => .error "TypeError: Cannot read properties of undefined"

/-- `getPayload()`: the normalized payload of a message event, `none` when
the event carries none (plain text, or a non-message event). An unresolved
media reference throws `Unable to find attachment`; an interactive reply
with neither reply object throws a `TypeError` (see
`interactivePayloadId`). The `|| 0` default on the location coordinates is
the identity on the modelled integers (`0 || 0` is `0`) and is folded in.
A raw event inconsistent with the recorded subtype (impossible for
adapters produced by `_init`) is a `TypeError` as well. -/
def getPayload (a : Adapter) : Except String (Option PayloadResult) :=
  if a.eventType = .message then
    match a.messageType with
    | some .postback =>
      match a.raw with
      | .message (.interactive _ i) =>
        (interactivePayloadId i).map fun s => some (.str s)
      | .message (.button _ b) => .ok (some (.str b.payload))
      | _ => .error "TypeError: Cannot read properties of undefined"
    | some .location =>
      match a.raw with
      | .message (.location _ loc) =>
        .ok (some (.locationPayload loc.latitude loc.longitude))
      | _ => .error "TypeError: Cannot read properties of undefined"
    | some .attachments =>
      match a.attachment with
      | none => .error "Unable to find attachment"
      | some att =>
        .ok (some (.attachmentsPayload (getTypeByMime att.type) att.id))
    | _ => .ok none
  else .ok none

/-- `getMessage()`: the canonical stored-message shape. The switch is on
the message subtype alone (there is no event-type guard); hitting no case -
in particular any event `_init` left without a subtype, i.e. every
delivery/read/unknown event - falls to the `default` branch, which returns
`undefined`. The media branch throws `Unable to find attachment` until the
attachment is resolved; once it is, the serialized text is built from the
one-element array `['attachment']` - the source calls
`serialized.concat([type, attachment.name])` but discards the result
(`Array.prototype.concat` does not mutate), so nothing is ever appended. -/
def getMessage (a : Adapter) : Except String (Option StdIncomingMessage) :=
  match a.messageType with
  | some .message =>
    match a.raw with
    | .message (.text _ t) => .ok (some (.textIn t))
    | _ => .error "TypeError: Cannot read properties of undefined"
  | some .postback =>
    match a.raw with
    | .message (.interactive _ i) =>
      .ok (some (.postbackIn
        (jsOrOpt (i.button_reply.map fun br => br.id)
          (i.list_reply.map fun lr => lr.id))
        (jsOrOpt (i.button_reply.map fun br => br.title)
          (i.list_reply.map fun lr => lr.title))))
    | .message (.button _ b) => .ok (some (.postbackIn (some b.payload) (some b.text)))
    | _ => .error "TypeError: Cannot read properties of undefined"
  | some .location =>
    match a.raw with
    | .message (.location _ loc) =>
      .ok (some (.locationIn loc.latitude loc.longitude))
    | _ => .error "TypeError: Cannot read properties of undefined"
  | some .attachments =>
    match a.attachment with
    | none => .error "Unable to find attachment"
    | some att =>
      let serialized := ["attachment"]
      let type := getTypeByMime att.type
      let _discarded := serialized ++ [type.str, att.name]
      .ok (some (.attachmentsIn (String.intercalate ":" serialized) type att.id))
  | _ => .ok none

/-- `getSenderForeignId()`: the sender phone number of a message event,
`undefined` otherwise (the source reads `raw.from`, a field only message
events carry). -/
def getSenderForeignId (a : Adapter) : Option String :=
  if a.eventType = .message then
    match a.raw with
    | .message m => some m.base.msg_from
    | .status _ => none
  else none

/-- `getDeliveredMessages()`: `[raw.id]` for a delivery event whose raw
status string is `delivered`, `[]` otherwise. -/
def getDeliveredMessages (a : Adapter) : List String :=
  if a.eventType = .delivery then
    match a.raw with
    | .status s => if s.status = "delivered" then [s.id] else []
    | .message _ => []
  else []

/-! ### Outbound wire shapes (src/types.ts, namespace WhatsApp.Messages) -/

namespace Messages

/-- `WhatsApp.Messages.Media`: the outbound media object (only the public
link is populated by the translator; caption/filename are left blank). -/
structure Media where
  id : Option String := none
  link : Option String := none
  caption : Option String := none
  filename : Option String := none
deriving DecidableEq, Repr

/-- `WhatsApp.Messages.ReplyButton`: `{type: 'reply', reply: {id, title}}`.
The constant `type` tag is kept as a field for fidelity to the wire shape. -/
structure ReplyButton where
  type : String := "reply"
  reply_id : String
  reply_title : String
deriving DecidableEq, Repr

/-- `WhatsApp.Messages.Row` of an interactive list section. -/
structure Row where
  id : String
  title : String
  description : Option String := none
deriving DecidableEq, Repr

/-- `WhatsApp.Messages.Section` of an interactive list. -/
structure WireSection where
  title : Option String := none
  rows : List Row := []
deriving DecidableEq, Repr

/-- `WhatsApp.Messages.Action`: the action object of an interactive
message (list messages use `button`/`sections`, reply-button messages use
`buttons`). -/
structure WireAction where
  button : Option String := none
  buttons : Option (List ReplyButton) := none
  sections : Option (List WireSection) := none
deriving DecidableEq, Repr

/-- `WhatsApp.Messages.Interactive`: the interactive object; `type` holds
the string value of `WhatsApp.Messages.InteractiveType` (`button`, `list`,
...). -/
structure Interactive where
  type : String
  body_text : String
  action : WireAction
deriving DecidableEq, Repr

/-- `WhatsApp.Messages.MediaType`: the wire media-kind enum. -/
inductive MediaType
  | image
  | document
  | audio
  | video
deriving DecidableEq, Repr

/-- The string value of a wire media kind (the type tag of a media
message). -/
def MediaType.tag : MediaType → String
  | .image => "image"
  | .document => "document"
  | .audio => "audio"
  | .video => "video"

/-- `WhatsApp.Messages.AnyMessage` restricted to the shapes the translator
produces: a text message, an interactive message, or a media message whose
type tag is the media kind and whose media object sits under the
same-named key. -/
inductive AnyMessage
  | textMsg (body : String)
  | interactiveMsg (interactive : Interactive)
  | mediaMsg (mediaType : MediaType) (media : Media)
deriving DecidableEq, Repr

/-- The `type` tag of a produced wire message. -/
def AnyMessage.typeTag : AnyMessage → String
  | .textMsg _ => "text"
  | .interactiveMsg _ => "interactive"
  | .mediaMsg mt _ => mt.tag

/-- The `interactive.type` tag of a produced wire message, when it is an
interactive one. -/
def AnyMessage.interactiveTypeTag : AnyMessage → Option String
  | .interactiveMsg i => some i.type
  | _ => none

end Messages

/-! ### Host outgoing envelope types (hexabot core, not part of this
repository), modelled from the spec -/

/-- Modelled from the spec: the host button union
(`@/chat/schemas/types/button`): a postback button `{type: postback, title,
payload}` or a web-url button `{type: web_url, title, url}`. -/
inductive OutButton
  | postbackBtn (title : String) (payload : String)
  | webUrlBtn (title : String) (url : String)
deriving DecidableEq, Repr

/-- Whether a host button has the simple postback type
(`type == ButtonType.postback`). -/
def OutButton.isPostback : OutButton → Bool
  | .postbackBtn .. => true
  | .webUrlBtn .. => false

/-- The title of a host button (present on both variants). -/
def OutButton.title : OutButton → String
  | .postbackBtn t _ => t
  | .webUrlBtn t _ => t

/-- Modelled from the spec: a host quick reply `{title, payload}`. -/
structure QuickReply where
  title : String
  payload : String
deriving DecidableEq, Repr

/-- Modelled from the spec: `StdOutgoingTextMessage`. -/
structure StdOutgoingTextMessage where
  text : String
deriving DecidableEq, Repr

/-- Modelled from the spec: `StdOutgoingQuickRepliesMessage`. -/
structure StdOutgoingQuickRepliesMessage where
  text : String
  quickReplies : List QuickReply
deriving DecidableEq, Repr

/-- Modelled from the spec: `StdOutgoingButtonsMessage`. -/
structure StdOutgoingButtonsMessage where
  text : String
  buttons : List OutButton
deriving DecidableEq, Repr

/-- Modelled from the spec: one CMS content element consumed by the list
formatter. The dynamic lookups `item[fields.title]` / `item[fields.subtitle]`
(field names taken from `options.content.fields`) are resolved to the
`title` / `subtitle` fields, and the host helper `Content.getPayload(item)`
to the `payload` field (the canonical payload of the element). -/
structure ContentElement where
  payload : String
  title : String
  subtitle : Option String := none
deriving DecidableEq, Repr

/-- Modelled from the spec: the `options` record of a list message; the
trigger label is read from `options.buttons[0].title`. -/
structure ListMsgOptions where
  buttons : List OutButton
deriving DecidableEq, Repr

/-- Modelled from the spec: `StdOutgoingListMessage`. -/
structure StdOutgoingListMessage where
  elements : List ContentElement
  options : ListMsgOptions
deriving DecidableEq, Repr

/-- Modelled from the spec: the attachment record of a
`StdOutgoingAttachmentMessage`: the host file kind plus the stored payload
handed to the public-URL resolver (reduced to its id). -/
structure OutAttachment where
  type : FileType
  payloadId : String
deriving DecidableEq, Repr

/-- Modelled from the spec: `StdOutgoingAttachmentMessage`. -/
structure StdOutgoingAttachmentMessage where
  attachment : OutAttachment
deriving DecidableEq, Repr

/-- Modelled from the spec: `StdOutgoingEnvelope`, the discriminated union
over the declared format enum {text, quickReplies, buttons, list, carousel,
attachment}. The TypeScript enum is erased at run time - `envelope.format`
is a plain string there - so a format value outside the declared enum is
representable; the `unsupportedFormat` constructor carries such a raw
string and reaches the `default` branch of `_formatMessage`. -/
inductive StdOutgoingEnvelope
  | text (message : StdOutgoingTextMessage)
  | quickReplies (message : StdOutgoingQuickRepliesMessage)
  | buttons (message : StdOutgoingButtonsMessage)
  | list (message : StdOutgoingListMessage)
  | carousel (message : StdOutgoingListMessage)
  | attachment (message : StdOutgoingAttachmentMessage)
  | unsupportedFormat (format : String)
deriving DecidableEq, Repr

/-! ### The outbound translator (src/index.channel.ts) -/

/-- `truncateText`: return the text unchanged when its length is within the
limit, else keep the first `maxLength - 3` characters and append an
ellipsis marker (`text.slice(0, maxLength - 3) + '...'`). -/
def truncateText (text : String) (maxLength : Nat) : String :=
  if text.length ≤ maxLength then text
  else String.mk (text.data.take (maxLength - 3)) ++ "..."

/-- `_textFormat`: `{type: 'text', text: {body: message.text}}`. -/
def _textFormat (message : StdOutgoingTextMessage) : Messages.AnyMessage :=
  .textMsg message.text

/-- `_quickRepliesFormat`: an interactive `button` message with one reply
option `{id: payload, title}` per quick reply. -/
def _quickRepliesFormat (message : StdOutgoingQuickRepliesMessage) :
    Messages.AnyMessage :=
  .interactiveMsg
    { type := "button"
      body_text := message.text
      action :=
        { buttons := some (message.quickReplies.map fun q =>
            { reply_id := q.payload, reply_title := q.title }) } }

/-- `_buttonsFormat`: an interactive `button` message; the source filters
the buttons down to those with the postback type before mapping each to a
reply option `{id: btn.payload, title: btn.title}` (URL buttons have no
wire counterpart and are silently dropped). -/
def _buttonsFormat (message : StdOutgoingButtonsMessage) :
    Messages.AnyMessage :=
  .interactiveMsg
    { type := "button"
      body_text := message.text
      action :=
        { buttons := some ((message.buttons.filter OutButton.isPostback).map
            fun btn =>
              match btn with
              | .postbackBtn title payload =>
                { reply_id := payload, reply_title := title }
              | .webUrlBtn title url =>
                { reply_id := url, reply_title := title }) } }

/-- `_listFormat`: an interactive `list` message with a single section, one
row per element (`id` from the canonical payload, `title`, and a
description only when the subtitle is truthy, truncated to 72 characters);
the trigger label is `message.options.buttons[0].title` - an unguarded
index whose access throws a `TypeError` when no button is declared. The
body text comes from the external i18n collaborator, embedded as the
parameter `tr` applied to the trigger label. -/
def _listFormat (tr : String → String) (message : StdOutgoingListMessage) :
    Except String Messages.AnyMessage :=
  let rows : List Messages.Row := message.elements.map fun item =>
    { id := item.payload
      title := item.title
      description :=
        if strTruthy item.subtitle then
          some (truncateText (item.subtitle.getD "") 72)
        else none }
  match message.options.buttons with
  | [] => .error "TypeError: Cannot read properties of undefined"
  | b0 :: _ =>
    let btnText := b0.title
    .ok (.interactiveMsg
      { type := "list"
        body_text := tr btnText
        action :=
          { sections := some [{ title := some "Section", rows := rows }]
            button := some btnText } })

/-- `_carouselFormat`: the carousel format has no wire counterpart, so the
source reuses the list translation unchanged. -/
def _carouselFormat (tr : String → String)
    (message : StdOutgoingListMessage) : Except String Messages.AnyMessage :=
  _listFormat tr message

/-- `_attachmentFormat`: resolve a public link for the stored attachment
(the external resolver `getPublicUrl` is a parameter) and wrap it in a
media message tagged by the wire kind derived from the host file kind
(`file` maps to `document`, the other supported kinds map by name); any
other kind throws `Unknown file type!`. -/
def _attachmentFormat (getPublicUrl : String → String)
    (message : StdOutgoingAttachmentMessage) :
    Except String Messages.AnyMessage :=
  let link := getPublicUrl message.attachment.payloadId
  let media : Messages.Media := { link := some link }
  match message.attachment.type with
  | .image => .ok (.mediaMsg .image media)
  | .audio => .ok (.mediaMsg .audio media)
  | .video => .ok (.mediaMsg .video media)
  | .file => .ok (.mediaMsg .document media)
  | .unknown => .error "Unknown file type!"

/-- `_formatMessage`: dispatch on the envelope format; the `default` branch
throws `Unknown message format`. -/
def _formatMessage (tr : String → String) (getPublicUrl : String → String) :
    StdOutgoingEnvelope → Except String Messages.AnyMessage
  | .buttons m => .ok (_buttonsFormat m)
  | .carousel m => _carouselFormat tr m
  | .list m => _listFormat tr m
  | .quickReplies m => .ok (_quickRepliesFormat m)
  | .text m => .ok (_textFormat m)
  | .attachment m => _attachmentFormat getPublicUrl m
  | .unsupportedFormat _ => .error "Unknown message format"

/-- The documented media-kind mapping from host file kinds to wire type
tags: `file` maps to `document`, the other supported kinds map by name;
`unknown` has no documented mapping (the translator throws instead). -/
def mediaTagOfFileType : FileType → String
  | .image => "image"
  | .audio => "audio"
  | .video => "video"
  | .file => "document"
  | .unknown => ""

/-! ### The webhook request pipeline (src/index.channel.ts) -/

/-- The HTTP responses the POST pipeline can produce. -/
inductive HttpResponse
  | ok200 (success : Bool)
  | json400 (err : String)
  | json500 (err : String)
deriving DecidableEq, Repr

/-- `middleware`: when the `x-hub-signature` header is truthy, store the
expected hash - the hex HMAC-SHA1 of the raw body under the configured app
secret - on the request (`req.whatsapp = { expectedHash }`); otherwise pass
through without storing anything. The node crypto primitive is the
parameter `hmacSha1Hex`. -/
def middleware (hmacSha1Hex : String → String → String)
    (appSecret rawBody header : String) : Option String :=
  if header = "" then none
  else some (hmacSha1Hex appSecret rawBody)

/-- `_verifySignature` reduced to its decision: split the header on `=`,
take the second element as the signature hash, and compare it against the
expected hash stored by the middleware (the empty string when none was
stored). A missing second element never equals the expected string, hence a
mismatch. -/
def verifySignatureAccepts (storedHash : Option String) (header : String) :
    Bool :=
  let expectedHash := storedHash.getD ""
  (jsSplit header '=').get? 1 = some expectedHash

/-- Decidable equality for `Except` results, used to evaluate concrete
dispatch outcomes in witnesses. -/
instance instDecEqExcept {ε α : Type} [DecidableEq ε] [DecidableEq α] :
    DecidableEq (Except ε α)
  | .ok x, .ok y =>
    if h : x = y then isTrue (by rw [h])
    else isFalse fun he => h (Except.ok.inj he)
  | .ok _, .error _ => isFalse fun he => Except.noConfusion he
  | .error _, .ok _ => isFalse fun he => Except.noConfusion he
  | .error x, .error y =>
    if h : x = y then isTrue (by rw [h])
    else isFalse fun he => h (Except.error.inj he)

/-- The outcome recorded for one unit by the dispatch loop of `handle`:
either the emission was attempted on the hook named after the event type
(with the result of the external emitter - a thrown error is caught and
logged), or the unit had a falsy (unknown) event type and was only logged. -/
inductive UnitOutcome
  | emitted (hook : String) (result : Except String Unit)
  | loggedUnknown
deriving DecidableEq, Repr

/-- One iteration of the dispatch loop: the `try` block reads the event
type, emits `hook:chatbot:<type>` when the type is truthy and logs an
unknown event otherwise; a throw from the emitter is caught and logged,
never propagated. -/
def dispatchUnit (emit : String → Adapter → Except String Unit)
    (a : Adapter) : UnitOutcome :=
  if a.eventType.jsTruthy then
    .emitted ("hook:chatbot:" ++ a.eventType.str)
      (emit ("hook:chatbot:" ++ a.eventType.str) a)
  else .loggedUnknown

/-- Construction of the wrapper for one inbound message: the source first
runs `change.value.contacts.find(({wa_id}) => wa_id === message.from)` to
assemble the channel data - an unguarded access that throws a `TypeError`
when the change carries no contacts array - and then builds the wrapper,
whose constructor classifies the message through `_init`. The looked-up
contact only feeds the channel data, which no claim observes; its lookup is
kept because its possible crash is part of the control flow. -/
def buildMessageEvent (contacts : Option (List Webhook.WebContact))
    (message : Webhook.Message) : Except String Adapter :=
  match contacts with
  | none => .error "TypeError: Cannot read properties of undefined"
  | some cs =>
    let _contact := cs.find? fun c => c.wa_id = message.base.msg_from
    .ok (_init (.message message))

/-- The `(change.value.messages || []).map(...)` loop building one wrapper
per message: each iteration runs the contact lookup and the classifying
constructor; a throw aborts the loop (and, since the loop runs outside the
per-unit `try`, the whole batch). -/
def buildMessageEvents (contacts : Option (List Webhook.WebContact)) :
    List Webhook.Message → Except String (List Adapter)
  | [] => .ok []
  | m :: ms => do
    let a ← buildMessageEvent contacts m
    let rest ← buildMessageEvents contacts ms
    pure (a :: rest)

/-- Processing of one change by `handle`: build one wrapper per message
(`change.value.messages || []`, with the contact lookup) and one per status
(`change.value.statuses || []`), then run the guarded dispatch loop over
their concatenation, recording each unit id with its outcome. A throw
during wrapper construction aborts the whole batch (it happens outside the
per-unit `try`). -/
def processChange (emit : String → Adapter → Except String Unit)
    (c : Webhook.Change) : Except String (List (String × UnitOutcome)) := do
  let messageEvents ← buildMessageEvents c.value.contacts
    (c.value.messages.getD [])
  let statusEvents := (c.value.statuses.getD []).map fun s => _init (.status s)
  pure ((messageEvents ++ statusEvents).map fun a =>
    (a.raw.eventId, dispatchUnit emit a))

/-- The inner `changes.forEach` of `handle`, in order; an uncaught throw in
any change aborts the remainder. -/
def processChanges (emit : String → Adapter → Except String Unit) :
    List Webhook.Change → Except String (List (String × UnitOutcome))
  | [] => .ok []
  | c :: cs => do
    let here ← processChange emit c
    let rest ← processChanges emit cs
    pure (here ++ rest)

/-- The outer `data.entry.forEach` of `handle`, in order. -/
def processEntries (emit : String → Adapter → Except String Unit) :
    List Webhook.Entry → Except String (List (String × UnitOutcome))
  | [] => .ok []
  | e :: es => do
    let here ← processChanges emit e.changes
    let rest ← processEntries emit es
    pure (here ++ rest)

/-- The POST pipeline after signature verification has passed:
`_validateMessage` rejects a body without the `whatsapp_business_account`
discriminator with 400, a body without `entry` is rejected with 500, and
otherwise every unit is dispatched and the response is `200 {success:
true}`; an uncaught throw while building the wrappers surfaces as
`Except.error` (the batch aborts with no 200 response). -/
def handleAfterSignature (emit : String → Adapter → Except String Unit)
    (body : Webhook.Notification) :
    Except String (HttpResponse × List (String × UnitOutcome)) :=
  if body.object ≠ "whatsapp_business_account" then
    .ok (.json400 "The whatsapp_business_account parameter is missing!", [])
  else
    match body.entry with
    | none =>
      .ok (.json500 "WhatsApp Channel Handler: Webhook received no entry data.",
        [])
    | some entries => do
      let outcomes ← processEntries emit entries
      pure (.ok200 true, outcomes)

/-- The full POST pipeline of `handle`: the middleware computes the
expected hash, `_verifySignature` compares it against the hash carried by
the `x-hub-signature` header and rejects a mismatch with a 500 JSON error
before anything is dispatched (the source text of the error is
`Couldn` + apostrophe + `t match the request signature.`; the apostrophe is
dropped here), and on a match the request proceeds to validation and
dispatch. -/
def handlePost (hmacSha1Hex : String → String → String)
    (appSecret rawBody header : String) (body : Webhook.Notification)
    (emit : String → Adapter → Except String Unit) :
    Except String (HttpResponse × List (String × UnitOutcome)) :=
  let storedHash := middleware hmacSha1Hex appSecret rawBody header
  if verifySignatureAccepts storedHash header then
    handleAfterSignature emit body
  else
    .ok (.json500 "Could not match the request signature.", [])

/-- The units one change contributes, classified, in payload order (all
messages first, then all statuses, as the source concatenates
`[...messageEvents, ...statusEvents]`). -/
def unitsOfChange (c : Webhook.Change) : List Adapter :=
  ((c.value.messages.getD []).map fun m => _init (.message m))
    ++ ((c.value.statuses.getD []).map fun s => _init (.status s))

/-- All units of a notification, classified, in payload order: the
reference list the dispatch loop is measured against. -/
def allUnits (entries : List Webhook.Entry) : List Adapter :=
  (entries.map fun e => (e.changes.map unitsOfChange).flatten).flatten

/-! ### Auxiliary predicates and projections used by the theorems -/

/-- Whether an inbound message has one of the five media type tags
(image, audio, video, document, sticker). -/
def Webhook.Message.isMedia : Webhook.Message → Bool
  | .image .. | .audio .. | .video .. | .document .. | .sticker .. => true
  | _ => false

/-- The plain postback string of a `getPayload()` result, when the call
succeeded with one. -/
def payloadStr : Except String (Option PayloadResult) → Option String
  | .ok (some (.str s)) => some s
  | _ => none

/-- The description of row `k` of the (single) section of a translated
interactive list message: `some d` when the translation succeeded and row
`k` exists with description `d` (itself an `Option`), `none` otherwise. -/
def rowDescriptionAt (r : Except String Messages.AnyMessage) (k : Nat) :
    Option (Option String) :=
  match r with
  | .ok (.interactiveMsg i) =>
    match i.action.sections with
    | some (sec :: _) => (sec.rows[k]?).map fun row => row.description
    | _ => none
  | _ => none

/-! ### Concrete fixtures used by witnesses and counterexamples -/

/-- A concrete stored attachment (an image). -/
def attImage : Attachment :=
  { id := "att-5", name := "photo.png", type := "image/png" }

/-- A concrete stored attachment (a PDF document). -/
def attPdf : Attachment :=
  { id := "att-10", name := "report.pdf", type := "application/pdf" }

/-- A concrete inbound image message. -/
def imageMsg : Webhook.Message :=
  .image
    { msg_from := "15550004444", id := "wamid.M5", timestamp := "1700000005" }
    { id := "media-5", mime_type := "image/png", sha256 := "deadbeef" }

/-- A concrete inbound document message. -/
def documentMsg : Webhook.Message :=
  .document
    { msg_from := "15550005555", id := "wamid.M10", timestamp := "1700000006" }
    { id := "media-10", mime_type := "application/pdf", sha256 := "cafe" }

/-- The adapter of `imageMsg` after attachment resolution. -/
def imageAdapterResolved : Adapter :=
  { _init (.message imageMsg) with attachment := some attImage }

/-- The adapter of `documentMsg` after attachment resolution. -/
def documentAdapterResolved : Adapter :=
  { _init (.message documentMsg) with attachment := some attPdf }

/-- A concrete list message whose single element carries an empty-string
subtitle (a description of length 0, hence within the 72-character limit). -/
def listMsgEmptyDescription : StdOutgoingListMessage :=
  { elements := [{ payload := "ITEM_1", title := "Item one", subtitle := some "" }]
    options := { buttons := [.postbackBtn "View" "VIEW_MORE"] } }

/-- The text message of `goodValue`. -/
def goodMsg : Webhook.Message :=
  .text { msg_from := "15550001111", id := "wamid.G1", timestamp := "1700000020" }
    "hello"

/-- The delivered status of `goodValue`. -/
def goodStatus : Webhook.Status :=
  { id := "wamid.G2", recipient_id := "15550001111", status := "delivered"
    timestamp := "1700000021" }

/-- A concrete valid change value: one text message with its contact
record, and one delivered status. -/
def goodValue : Webhook.Value :=
  { metadata := { display_phone_number := "15550000000", phone_number_id := "PNID" }
    contacts := some [{ name := "Ada", wa_id := "15550001111" }]
    messages := some [goodMsg]
    statuses := some [goodStatus] }

/-- A concrete valid notification wrapping `goodValue`. -/
def goodNotification : Webhook.Notification :=
  { object := "whatsapp_business_account"
    entry := some [{ changes := [{ value := goodValue }] }] }

/-- The first of the two messages of `noContactsNotification`. -/
def noContactsMsg1 : Webhook.Message :=
  .text { msg_from := "15550001111", id := "wamid.B1", timestamp := "1700000030" }
    "first"

/-- The second of the two messages of `noContactsNotification`. -/
def noContactsMsg2 : Webhook.Message :=
  .text { msg_from := "15550001111", id := "wamid.B2", timestamp := "1700000031" }
    "second"

/-- A concrete change value carrying two messages but no contacts array. -/
def noContactsValue : Webhook.Value :=
  { metadata := { display_phone_number := "15550000000", phone_number_id := "PNID" }
    contacts := none
    messages := some [noContactsMsg1, noContactsMsg2]
    statuses := none }

/-- A concrete notification that carries the discriminator and an entry
array, with two messages but no contacts array in the change value. -/
def noContactsNotification : Webhook.Notification :=
  { object := "whatsapp_business_account"
    entry := some [{ changes := [{ value := noContactsValue }] }] }

/-- An emitter that throws on the first unit of `goodNotification` and
succeeds on every other unit. -/
def failFirstEmit : String → Adapter → Except String Unit :=
  fun _ a => if a.raw.eventId = "wamid.G1" then .error "handler crashed" else .ok ()

/-- A concrete stand-in for the HMAC-SHA1 hex primitive, used only to
instantiate the signature theorem at a witness; its outputs for the witness
inputs contain no `=` character, like real hex digests. -/
def concatHmac (secret body : String) : String :=
  secret ++ "-" ++ body

/-- A concrete inbound interactive message carrying a button reply whose id
is the empty string next to a populated list reply. -/
def interactiveBothReplies : Event :=
  .message (.interactive
    { msg_from := "15550006666", id := "wamid.M8", timestamp := "1700000007" }
    { type := "button_reply"
      button_reply := some { id := "", title := "BTitle" }
      list_reply := some { id := "L1", title := "LTitle", description := "d" } })

/-! ### Claim C1 -/

/-- Claim C1 as stated is false: a delivery event (a status unit with
`status: "delivered"`) is a non-message event, yet `getMessage()` does not
fail - the switch on the (never assigned) message subtype falls through to
the default branch and the call returns `undefined` successfully. The
adapter sources contain no `InvalidEventError` at all. -/
theorem C1_counterexample :
    getMessage (_init (.status
      { id := "wamid.CX1", recipient_id := "15550001111",
        status := "delivered", timestamp := "1700000000" })) = .ok none := rfl

/-- Claim C1 (amended): for every event wrapper whose event type is not
message (delivery, read, or unknown), `getMessage()` returns `undefined`
(no stored-message shape) through the default branch of its subtype
switch, rather than failing with an error. -/
theorem C1_amended (e : Event) (h : (_init e).eventType ≠ .message) :
    getMessage (_init e) = .ok none := by
  cases e with
  | status s => rfl
  | message m =>
    cases m with
    | contacts base cs => exact absurd rfl h
    | text base t => exact absurd rfl h
    | image base x => exact absurd rfl h
    | audio base x => exact absurd rfl h
    | video base x => exact absurd rfl h
    | document base x => exact absurd rfl h
    | sticker base x => exact absurd rfl h
    | interactive base x => exact absurd rfl h
    | button base x => exact absurd rfl h
    | location base x => exact absurd rfl h
    | order base => rfl
    | system base => rfl
    | reaction base => rfl
    | unknownType base => rfl

/-- Witness for C1 (amended) at a concrete read-status event. -/
theorem C1_witness :
    getMessage (_init (.status
      { id := "wamid.W1", recipient_id := "15550002222",
        status := "read", timestamp := "1700000001" })) = .ok none :=
  C1_amended
    (.status
      { id := "wamid.W1", recipient_id := "15550002222",
        status := "read", timestamp := "1700000001" })
    (by decide)

/-! ### Claim C4 -/

/-- Claim C4: classifying a status unit sets the event type to `delivery`
exactly for the status string `delivered` (and then
`getDeliveredMessages()` returns exactly that unit's message id), to
`read` for `read` (and then `getDeliveredMessages()` is empty), and to
`unknown` for every other status string; no message subtype is assigned in
any of these cases. -/
theorem C4_status_classification (s : Webhook.Status) :
    (s.status = "delivered" →
      (_init (.status s)).eventType = .delivery ∧
      getDeliveredMessages (_init (.status s)) = [s.id]) ∧
    (s.status = "read" →
      (_init (.status s)).eventType = .read ∧
      getDeliveredMessages (_init (.status s)) = []) ∧
    (s.status ≠ "delivered" → s.status ≠ "read" →
      (_init (.status s)).eventType = .unknown) ∧
    (_init (.status s)).messageType = none := by
  refine ⟨?_, ?_, ?_, rfl⟩
  · intro hd
    simp [_init, getDeliveredMessages, hd]
  · intro hr
    have hd : s.status ≠ "delivered" := by
      rw [hr]; decide
    simp [_init, getDeliveredMessages, hr, hd]
  · intro hd hr
    simp [_init, hd, hr]

/-- Witness for C4 at concrete delivered and read status units. -/
theorem C4_witness :
    getDeliveredMessages (_init (.status
      { id := "wamid.D4", recipient_id := "15550003333",
        status := "delivered", timestamp := "1700000002" })) = ["wamid.D4"] ∧
    getDeliveredMessages (_init (.status
      { id := "wamid.R4", recipient_id := "15550003333",
        status := "read", timestamp := "1700000003" })) = [] ∧
    (_init (.status
      { id := "wamid.S4", recipient_id := "15550003333",
        status := "sent", timestamp := "1700000004" })).eventType = .unknown :=
  ⟨((C4_status_classification
      { id := "wamid.D4", recipient_id := "15550003333",
        status := "delivered", timestamp := "1700000002" }).1 rfl).2,
    ((C4_status_classification
      { id := "wamid.R4", recipient_id := "15550003333",
        status := "read", timestamp := "1700000003" }).2.1 rfl).2,
    (C4_status_classification
      { id := "wamid.S4", recipient_id := "15550003333",
        status := "sent", timestamp := "1700000004" }).2.2.1
      (by decide) (by decide)⟩

/-! ### Claim C5 -/

/-- Claim C5: for a message unit with one of the five media type tags,
`getPayload()` and `getMessage()` fail with the missing-attachment error
(`Unable to find attachment`) while the media reference is unresolved;
once the external collaborator has resolved it to a stored attachment,
`getPayload()` succeeds with a payload whose attachment id is exactly the
stored attachment's id. -/
theorem C5_media_attachment_resolution (msg : Webhook.Message)
    (att : Attachment) (h : msg.isMedia = true) :
    getPayload (_init (.message msg)) = .error "Unable to find attachment" ∧
    getMessage (_init (.message msg)) = .error "Unable to find attachment" ∧
    getPayload { _init (.message msg) with attachment := some att }
      = .ok (some (.attachmentsPayload (getTypeByMime att.type) att.id)) := by
  cases msg <;> simp [Webhook.Message.isMedia] at h <;>
    exact ⟨rfl, rfl, rfl⟩

/-- Witness for C5 at a concrete image message and stored attachment. -/
theorem C5_witness :
    getPayload (_init (.message imageMsg))
      = .error "Unable to find attachment" ∧
    getPayload imageAdapterResolved
      = .ok (some (.attachmentsPayload .image "att-5")) :=
  have h := C5_media_attachment_resolution imageMsg attImage (by decide)
  have e : getTypeByMime attImage.type = FileType.image := by decide
  ⟨h.1, by
    have h2 := h.2.2
    rw [e] at h2
    exact h2⟩

/-! ### Claim C10 -/

/-- Claim C10: for a resolved media message, the `serialized_text` built by
`getMessage()` is exactly the string `attachment`, whatever the stored
attachment's type and name are: the source appends them with
`serialized.concat([type, attachment.name])` but `Array.prototype.concat`
returns a new array and the result is discarded, so the joined text is
built from the one-element array alone. -/
theorem C10_serialized_text (msg : Webhook.Message) (att : Attachment)
    (h : msg.isMedia = true) :
    getMessage { _init (.message msg) with attachment := some att }
      = .ok (some (.attachmentsIn "attachment" (getTypeByMime att.type)
          att.id)) := by
  cases msg <;> simp [Webhook.Message.isMedia] at h <;> rfl

/-- Witness for C10 at a concrete resolved document message - the document
type and its file name are absent from the serialized text. -/
theorem C10_witness :
    getMessage documentAdapterResolved
      = .ok (some (.attachmentsIn "attachment" .file "att-10")) := by
  have h := C10_serialized_text documentMsg attPdf (by decide)
  have e : getTypeByMime attPdf.type = FileType.file := by decide
  rw [e] at h
  exact h

/-! ### Claim C7 -/

/-- The composition of the postback filter and the reply-option map of
`_buttonsFormat` is the one-pass filter-map keeping exactly the postback
buttons, each as `{id: payload, title}`, in order. -/
theorem filter_postback_map_eq_filterMap (bs : List OutButton) :
    (bs.filter OutButton.isPostback).map (fun btn =>
        match btn with
        | OutButton.postbackBtn title payload =>
          ({ reply_id := payload, reply_title := title } :
            Messages.ReplyButton)
        | OutButton.webUrlBtn title url =>
          { reply_id := url, reply_title := title })
      = bs.filterMap fun b =>
          match b with
          | OutButton.postbackBtn title payload =>
            some { reply_id := payload, reply_title := title }
          | OutButton.webUrlBtn _ _ => none := by
  induction bs with
  | nil => rfl
  | cons b bs ih =>
    cases b with
    | postbackBtn t p =>
      simp [List.filter_cons, List.filterMap_cons, OutButton.isPostback, ih]
    | webUrlBtn t u =>
      simp [List.filter_cons, List.filterMap_cons, OutButton.isPostback, ih]

/-- Claim C7: translating a buttons envelope keeps exactly the
postback-type buttons - each mapped, in order, to one reply option whose id
is the button payload and whose title is the button title - and drops every
non-postback (URL) button without error: the translation always succeeds
and its button list is the corresponding filter-map of the input. -/
theorem C7_buttons_filtering (tr getPublicUrl : String → String)
    (m : StdOutgoingButtonsMessage) :
    _formatMessage tr getPublicUrl (.buttons m)
      = .ok (.interactiveMsg
          { type := "button"
            body_text := m.text
            action :=
              { buttons := some (m.buttons.filterMap fun b =>
                  match b with
                  | .postbackBtn title payload =>
                    some { reply_id := payload, reply_title := title }
                  | .webUrlBtn _ _ => none) } }) ∧
    ((m.buttons.filterMap fun b =>
        match b with
        | .postbackBtn title payload =>
          some ({ reply_id := payload, reply_title := title } :
            Messages.ReplyButton)
        | .webUrlBtn _ _ => none)).length
      = (m.buttons.filter OutButton.isPostback).length := by
  constructor
  · simp only [_formatMessage, _buttonsFormat,
      filter_postback_map_eq_filterMap]
  · rw [← filter_postback_map_eq_filterMap, List.length_map]

/-! ### Claim C6 -/

/-- Claim C6 as stated is false at the empty description: an element whose
subtitle is the empty string (length 0, within the 72-character limit) is
not passed through unchanged - the truthiness guard
`item[fields.subtitle] ? ... : undefined` drops it, so the translated row
carries no description at all instead of the unchanged empty string. -/
theorem C6_counterexample :
    rowDescriptionAt (_listFormat id listMsgEmptyDescription) 0 = some none ∧
    rowDescriptionAt (_listFormat id listMsgEmptyDescription) 0
      ≠ some (some "") := by
  exact ⟨by decide, by decide⟩

/-- Claim C6 (amended): for a list row description string that is nonempty,
the translation applies `truncateText` with limit 72: a description of
length at most 72 is kept unchanged, and a longer one is replaced by its
first 72 - 3 characters followed by the three-character ellipsis marker, so
the result has length at most 72 and ends with the marker. An empty
description string, however, is dropped altogether (the row carries no
description), as is an absent subtitle: the guard is JavaScript truthiness,
not presence. -/
theorem C6_amended (tr : String → String) (msg : StdOutgoingListMessage)
    (k : Nat) (item : ContentElement) (s : String)
    (hbtn : msg.options.buttons ≠ [])
    (hk : msg.elements[k]? = some item) :
    (s.length ≤ 72 → truncateText s 72 = s) ∧
    (72 < s.length →
      truncateText s 72 = String.mk (s.data.take 69) ++ "..." ∧
      (truncateText s 72).length ≤ 72 ∧
      "...".data <:+ (truncateText s 72).data) ∧
    rowDescriptionAt (_listFormat tr msg) k
      = some (if strTruthy item.subtitle
          then some (truncateText (item.subtitle.getD "") 72)
          else none) := by
  refine ⟨?_, ?_, ?_⟩
  · intro hle
    simp [truncateText, hle]
  · intro hgt
    have hle : ¬ s.length ≤ 72 := by omega
    have hform : truncateText s 72 = String.mk (s.data.take 69) ++ "..." := by
      simp [truncateText, hle]
    refine ⟨hform, ?_, ?_⟩
    · rw [hform]
      have hlen : (String.mk (s.data.take 69) ++ "...").length
          = (s.data.take 69).length + 3 := by
        rw [String.length_append]
        rfl
      rw [hlen]
      have := s.data.length_take_le 69
      omega
    · rw [hform]
      exact ⟨s.data.take 69, rfl⟩
  · cases hbz : msg.options.buttons with
    | nil => exact absurd hbz hbtn
    | cons b0 bs =>
      simp [_listFormat, hbz, rowDescriptionAt, List.getElem?_map, hk]

/-- Witness for C6 (amended): a 100-character description is truncated to
its first 69 characters plus the marker, and a short nonempty description
passes through unchanged. -/
theorem C6_witness :
    truncateText (String.mk (List.replicate 100 'x')) 72
      = String.mk (List.replicate 69 'x') ++ "..." ∧
    truncateText "short description" 72 = "short description" ∧
    rowDescriptionAt (_listFormat id listMsgEmptyDescription) 0
      = some (if strTruthy (some "") then some (truncateText "" 72)
          else none) := by
  refine ⟨?_, ?_, ?_⟩
  · have h := (C6_amended id listMsgEmptyDescription 0
      { payload := "ITEM_1", title := "Item one", subtitle := some "" }
      (String.mk (List.replicate 100 'x')) (by decide) (by decide)).2.1
      (by decide)
    rw [h.1]
    congr 1
  · exact (C6_amended id listMsgEmptyDescription 0
      { payload := "ITEM_1", title := "Item one", subtitle := some "" }
      "short description" (by decide) (by decide)).1 (by decide)
  · exact (C6_amended id listMsgEmptyDescription 0
      { payload := "ITEM_1", title := "Item one", subtitle := some "" }
      "unused" (by decide) (by decide)).2.2

/-! ### Claim C8 -/

/-- Claim C8 as stated is false: for an interactive postback message whose
button reply is present but carries an empty id, `getPayload()` does not
source the id from the (present) button reply - the `||` chain is decided
by truthiness, so the empty id falls through to the list reply. The same
input shows `getMessage()` mixing the two sources: the postback id comes
from the list reply while the title comes from the button reply. -/
theorem C8_counterexample :
    payloadStr (getPayload (_init interactiveBothReplies)) = some "L1" ∧
    payloadStr (getPayload (_init interactiveBothReplies)) ≠ some "" ∧
    getMessage (_init interactiveBothReplies)
      = .ok (some (.postbackIn (some "L1") (some "BTitle"))) :=
  ⟨by decide, by decide, rfl⟩

/-- Claim C8 (amended): the payload id and title of a postback message are
sourced by first-truthy selection, field by field: from `button_reply`
when it is present and the field is nonempty, otherwise from `list_reply`,
and - for plain template-button messages, which carry neither reply
object - from the plain button payload. When the button reply fields are
nonempty (the wire-normal situation) this coincides with the claimed
presence-based precedence. -/
theorem C8_amended (base : Webhook.MsgBase) (i : Webhook.Interactive)
    (b : Webhook.Button) :
    (∀ br, i.button_reply = some br → br.id ≠ "" →
      getPayload (_init (.message (.interactive base i)))
        = .ok (some (.str br.id))) ∧
    (i.button_reply = none → ∀ lr, i.list_reply = some lr →
      getPayload (_init (.message (.interactive base i)))
        = .ok (some (.str lr.id))) ∧
    (∀ br, i.button_reply = some br → br.id ≠ "" → br.title ≠ "" →
      getMessage (_init (.message (.interactive base i)))
        = .ok (some (.postbackIn (some br.id) (some br.title)))) ∧
    (i.button_reply = none → ∀ lr, i.list_reply = some lr →
      getMessage (_init (.message (.interactive base i)))
        = .ok (some (.postbackIn (some lr.id) (some lr.title)))) ∧
    getPayload (_init (.message (.button base b)))
      = .ok (some (.str b.payload)) ∧
    getMessage (_init (.message (.button base b)))
      = .ok (some (.postbackIn (some b.payload) (some b.text))) := by
  refine ⟨?_, ?_, ?_, ?_, rfl, rfl⟩
  · intro br hbr hid
    simp [getPayload, _init, interactivePayloadId, Except.map, hbr, hid]
  · intro hnone lr hlr
    simp [getPayload, _init, interactivePayloadId, Except.map, hnone, hlr]
  · intro br hbr hid htitle
    simp [getMessage, _init, jsOrOpt, hbr, hid, htitle]
  · intro hnone lr hlr
    simp [getMessage, _init, jsOrOpt, hnone, hlr]

/-- Witness for C8 (amended) at concrete postback messages of all three
source shapes. -/
theorem C8_witness :
    getPayload (_init (.message (.interactive
      { msg_from := "15550007777", id := "wamid.W8a", timestamp := "1700000008" }
      { type := "button_reply"
        button_reply := some { id := "BTN_1", title := "Yes" }
        list_reply := none })))
      = .ok (some (.str "BTN_1")) ∧
    getPayload (_init (.message (.interactive
      { msg_from := "15550007777", id := "wamid.W8b", timestamp := "1700000009" }
      { type := "list_reply"
        button_reply := none
        list_reply := some { id := "ROW_2", title := "Second", description := "" } })))
      = .ok (some (.str "ROW_2")) ∧
    getMessage (_init (.message (.button
      { msg_from := "15550007777", id := "wamid.W8c", timestamp := "1700000010" }
      { payload := "TPL_BTN", text := "Template button" })))
      = .ok (some (.postbackIn (some "TPL_BTN") (some "Template button"))) :=
  ⟨(C8_amended
      { msg_from := "15550007777", id := "wamid.W8a", timestamp := "1700000008" }
      { type := "button_reply"
        button_reply := some { id := "BTN_1", title := "Yes" }
        list_reply := none }
      { payload := "TPL_BTN", text := "Template button" }).1
      { id := "BTN_1", title := "Yes" } rfl (by decide),
    (C8_amended
      { msg_from := "15550007777", id := "wamid.W8b", timestamp := "1700000009" }
      { type := "list_reply"
        button_reply := none
        list_reply := some { id := "ROW_2", title := "Second", description := "" } }
      { payload := "TPL_BTN", text := "Template button" }).2.1 rfl
      { id := "ROW_2", title := "Second", description := "" } rfl,
    (C8_amended
      { msg_from := "15550007777", id := "wamid.W8c", timestamp := "1700000010" }
      { type := "button_reply", button_reply := none, list_reply := none }
      { payload := "TPL_BTN", text := "Template button" }).2.2.2.2.2⟩

/-! ### Claim C3 -/

/-- Claim C3 as stated is false: it promises a wire message (with a derived
media tag) for every attachment envelope and reserves the thrown error for
format values outside the declared enum, yet an attachment envelope whose
host file kind is outside image/audio/video/file makes the translator throw
`Unknown file type!` - an in-enum format with no wire message at all. -/
theorem C3_counterexample :
    _formatMessage id id
        (.attachment { attachment := { type := .unknown, payloadId := "att-9" } })
      = .error "Unknown file type!" := rfl

/-- Claim C3 (amended): the translator maps text envelopes to wire type
`text`; quick-reply and buttons envelopes to wire type `interactive` with
interactive subtype `button`; list envelopes carrying at least one declared
button (the trigger-label source - without one the translation fails on the
unguarded index) to `interactive` with subtype `list`; a carousel envelope
to exactly the result of the list translation, unchanged; an attachment
envelope with a supported file kind to the media tag derived by the
documented mapping, while the `unknown` kind throws `Unknown file type!`;
and any format value outside the declared enum throws
`Unknown message format`. -/
theorem C3_amended (tr getPublicUrl : String → String) :
    (∀ m : StdOutgoingTextMessage,
      (_formatMessage tr getPublicUrl (.text m)).map
          Messages.AnyMessage.typeTag = .ok "text") ∧
    (∀ m : StdOutgoingQuickRepliesMessage,
      (_formatMessage tr getPublicUrl (.quickReplies m)).map
          Messages.AnyMessage.typeTag = .ok "interactive" ∧
      (_formatMessage tr getPublicUrl (.quickReplies m)).map
          Messages.AnyMessage.interactiveTypeTag = .ok (some "button")) ∧
    (∀ m : StdOutgoingButtonsMessage,
      (_formatMessage tr getPublicUrl (.buttons m)).map
          Messages.AnyMessage.typeTag = .ok "interactive" ∧
      (_formatMessage tr getPublicUrl (.buttons m)).map
          Messages.AnyMessage.interactiveTypeTag = .ok (some "button")) ∧
    (∀ m : StdOutgoingListMessage, m.options.buttons ≠ [] →
      (_formatMessage tr getPublicUrl (.list m)).map
          Messages.AnyMessage.typeTag = .ok "interactive" ∧
      (_formatMessage tr getPublicUrl (.list m)).map
          Messages.AnyMessage.interactiveTypeTag = .ok (some "list")) ∧
    (∀ m : StdOutgoingListMessage,
      _formatMessage tr getPublicUrl (.carousel m)
        = _formatMessage tr getPublicUrl (.list m)) ∧
    (∀ m : StdOutgoingAttachmentMessage, m.attachment.type ≠ .unknown →
      (_formatMessage tr getPublicUrl (.attachment m)).map
          Messages.AnyMessage.typeTag
        = .ok (mediaTagOfFileType m.attachment.type)) ∧
    (∀ m : StdOutgoingAttachmentMessage, m.attachment.type = .unknown →
      _formatMessage tr getPublicUrl (.attachment m)
        = .error "Unknown file type!") ∧
    (∀ f, _formatMessage tr getPublicUrl (.unsupportedFormat f)
        = .error "Unknown message format") := by
  refine ⟨fun m => rfl, fun m => ⟨rfl, rfl⟩, fun m => ⟨rfl, rfl⟩,
    ?_, fun m => rfl, ?_, ?_, fun f => rfl⟩
  · intro m hbtn
    cases hbz : m.options.buttons with
    | nil => exact absurd hbz hbtn
    | cons b0 bs =>
      exact ⟨by simp [_formatMessage, _listFormat, hbz, Except.map,
          Messages.AnyMessage.typeTag],
        by simp [_formatMessage, _listFormat, hbz, Except.map,
          Messages.AnyMessage.interactiveTypeTag]⟩
  · intro m hk
    cases hty : m.attachment.type <;>
      simp [_formatMessage, _attachmentFormat, hty, Except.map,
        mediaTagOfFileType, Messages.AnyMessage.typeTag, Messages.MediaType.tag]
    exact absurd hty hk
  · intro m hk
    simp [_formatMessage, _attachmentFormat, hk]

/-- Witness for C3 (amended) at concrete envelopes: an empty list with one
declared button, a video attachment, and an out-of-enum format string. -/
theorem C3_witness :
    (_formatMessage id id
        (.list { elements := [], options := { buttons := [.postbackBtn "View" "V"] } })).map
        Messages.AnyMessage.interactiveTypeTag = .ok (some "list") ∧
    (_formatMessage id id
        (.attachment { attachment := { type := .video, payloadId := "att-3" } })).map
        Messages.AnyMessage.typeTag = .ok "video" ∧
    _formatMessage id id (.unsupportedFormat "story")
      = .error "Unknown message format" :=
  ⟨((C3_amended id id).2.2.2.1
      { elements := [], options := { buttons := [.postbackBtn "View" "V"] } }
      (by decide)).2,
    (C3_amended id id).2.2.2.2.2.1
      { attachment := { type := .video, payloadId := "att-3" } } (by decide),
    (C3_amended id id).2.2.2.2.2.2.2 "story"⟩

/-! ### Claim C2 -/

/-- Building the message wrappers succeeds whenever the change carries a
contacts array, and yields exactly the classified messages in order. -/
theorem buildMessageEvents_ok (cs : List Webhook.WebContact)
    (msgs : List Webhook.Message) :
    buildMessageEvents (some cs) msgs
      = .ok (msgs.map fun m => _init (.message m)) := by
  induction msgs with
  | nil => rfl
  | cons m ms ih =>
    simp only [buildMessageEvents, buildMessageEvent, ih, List.map_cons]
    rfl

/-- Processing one change whose messages (if any) come with a contacts
array records one outcome per unit, in order, and never fails. -/
theorem processChange_ok (emit : String → Adapter → Except String Unit)
    (c : Webhook.Change)
    (h : c.value.messages.getD [] ≠ [] → c.value.contacts.isSome = true) :
    processChange emit c
      = .ok ((unitsOfChange c).map fun a => (a.raw.eventId, dispatchUnit emit a)) := by
  cases hc : c.value.contacts with
  | some cs =>
    simp [processChange, unitsOfChange, hc, buildMessageEvents_ok]
  | none =>
    have hm : c.value.messages.getD [] = [] := by
      by_contra hne
      have := h hne
      rw [hc] at this
      simp at this
    simp [processChange, unitsOfChange, hm, buildMessageEvents]

/-- Processing a change list under the per-change contacts condition:
one outcome per unit, in order, never failing. -/
theorem processChanges_ok (emit : String → Adapter → Except String Unit)
    (chs : List Webhook.Change)
    (h : ∀ c ∈ chs, c.value.messages.getD [] ≠ [] →
      c.value.contacts.isSome = true) :
    processChanges emit chs
      = .ok (((chs.map unitsOfChange).flatten).map fun a =>
          (a.raw.eventId, dispatchUnit emit a)) := by
  induction chs with
  | nil => rfl
  | cons c cs ih =>
    have hc := h c (List.mem_cons_self c cs)
    have hcs : ∀ x ∈ cs, x.value.messages.getD [] ≠ [] →
        x.value.contacts.isSome = true :=
      fun x hx => h x (List.mem_cons_of_mem c hx)
    simp [processChanges, processChange_ok emit c hc, ih hcs]
    rfl

/-- Processing an entry list under the per-change contacts condition:
one outcome per unit of `allUnits`, in order, never failing. -/
theorem processEntries_ok (emit : String → Adapter → Except String Unit)
    (entries : List Webhook.Entry)
    (h : ∀ e ∈ entries, ∀ c ∈ e.changes, c.value.messages.getD [] ≠ [] →
      c.value.contacts.isSome = true) :
    processEntries emit entries
      = .ok ((allUnits entries).map fun a =>
          (a.raw.eventId, dispatchUnit emit a)) := by
  induction entries with
  | nil => rfl
  | cons e es ih =>
    have he := h e (List.mem_cons_self e es)
    have hes : ∀ x ∈ es, ∀ c ∈ x.changes, c.value.messages.getD [] ≠ [] →
        c.value.contacts.isSome = true :=
      fun x hx => h x (List.mem_cons_of_mem e hx)
    simp [processEntries, allUnits, processChanges_ok emit e.changes he,
      ih hes]
    rfl

/-- Claim C2 as stated is false: a POST notification that carries the
`whatsapp_business_account` discriminator and an entry array, with two
messages in one change but no contacts array, makes the per-message contact
lookup (`change.value.contacts.find(...)`, which runs outside the per-unit
`try`) throw an uncaught TypeError. The whole batch aborts - neither
message unit is dispatched, even with an emitter that never fails - and no
`200 {success: true}` response is produced. -/
theorem C2_counterexample :
    handleAfterSignature (fun _ _ => .ok ()) noContactsNotification
      = .error "TypeError: Cannot read properties of undefined" := rfl

/-- Claim C2 (amended): for every valid POST notification whose
message-bearing changes also carry their contacts array, and for every
behaviour of the external emitter, dispatch attempts every message/status
unit of the batch in payload order - an emission failure for one unit is
caught and recorded for that unit alone, never blocking its siblings - and
the HTTP response is `200 {success: true}`. Without the contacts array
next to messages, however, wrapper construction (which runs outside the
per-unit `try`) throws and aborts the whole batch. -/
theorem C2_amended (emit : String → Adapter → Except String Unit)
    (body : Webhook.Notification) (entries : List Webhook.Entry)
    (hobj : body.object = "whatsapp_business_account")
    (hentry : body.entry = some entries)
    (hcontacts : ∀ e ∈ entries, ∀ c ∈ e.changes,
      c.value.messages.getD [] ≠ [] → c.value.contacts.isSome = true) :
    handleAfterSignature emit body
      = .ok (.ok200 true,
          (allUnits entries).map fun a =>
            (a.raw.eventId, dispatchUnit emit a)) := by
  simp [handleAfterSignature, hobj, hentry,
    processEntries_ok emit entries hcontacts]

/-- Witness for C2 (amended) at `goodNotification` with an emitter that
throws on the first (message) unit: the failure is recorded for that unit,
the sibling status unit is still dispatched, and the response is
`200 {success: true}`. -/
theorem C2_witness :
    handleAfterSignature failFirstEmit goodNotification
      = .ok (.ok200 true,
          [("wamid.G1", .emitted "hook:chatbot:message"
              (.error "handler crashed")),
            ("wamid.G2", .emitted "hook:chatbot:delivery" (.ok ()))]) := by
  have h := C2_amended failFirstEmit goodNotification
    [{ changes := [{ value := goodValue }] }] rfl rfl (by decide)
  rw [h]
  decide

/-! ### Claim C9 -/

/-- Splitting a character list that does not contain the separator yields
the single chunk holding the whole list. -/
theorem splitChars_no_sep (sep : Char) (l : List Char) (h : sep ∉ l) :
    splitChars sep l = [l] := by
  induction l with
  | nil => rfl
  | cons c cs ih =>
    simp only [List.mem_cons, not_or] at h
    obtain ⟨h1, h2⟩ := h
    have hc : (c = sep) = False := eq_false fun e => h1 e.symm
    simp [splitChars, hc, ih h2]

/-- Splitting a header of the exact shape `sha1=<hash>` on `=` yields the
scheme and the hash, provided the hash (like any hex digest) contains no
`=` character. -/
theorem jsSplit_sha1_prefix (h : String) (hh : '=' ∉ h.data) :
    jsSplit ("sha1=" ++ h) '=' = ["sha1", h] := by
  have hdata : ("sha1=" ++ h).data
      = 's' :: 'h' :: 'a' :: '1' :: '=' :: h.data := rfl
  have hmk : String.mk h.data = h := rfl
  simp [jsSplit, hdata, splitChars, splitChars_no_sep '=' h.data hh, hmk]

/-- Claim C9: a POST request whose `x-hub-signature` header carries exactly
`sha1=` followed by the hex HMAC-SHA1 of the raw body under the configured
app secret passes signature verification and processing proceeds to
validation and dispatch; a header whose hash differs from that HMAC is
rejected with the 500 JSON signature error and no unit is dispatched. The
HMAC primitive (node crypto) is the abstract parameter `hmacSha1Hex`; as a
hex digest, its output is assumed free of the `=` separator, as is the hash
carried by the header. -/
theorem C9_signature (hmacSha1Hex : String → String → String)
    (appSecret rawBody : String) (body : Webhook.Notification)
    (emit : String → Adapter → Except String Unit) (sigHash : String)
    (hhex : '=' ∉ (hmacSha1Hex appSecret rawBody).data)
    (hsig : '=' ∉ sigHash.data) :
    (handlePost hmacSha1Hex appSecret rawBody
        ("sha1=" ++ hmacSha1Hex appSecret rawBody) body emit
      = handleAfterSignature emit body) ∧
    (sigHash ≠ hmacSha1Hex appSecret rawBody →
      handlePost hmacSha1Hex appSecret rawBody ("sha1=" ++ sigHash) body emit
        = .ok (.json500 "Could not match the request signature.", [])) := by
  have hne : ∀ t : String, ("sha1=" ++ t) ≠ "" := by
    intro t heq
    have := congrArg String.data heq
    simp at this
  constructor
  · have hsplit := jsSplit_sha1_prefix (hmacSha1Hex appSecret rawBody) hhex
    simp [handlePost, middleware, verifySignatureAccepts, hne _, hsplit]
  · intro hdiff
    have hsplit := jsSplit_sha1_prefix sigHash hsig
    simp [handlePost, middleware, verifySignatureAccepts, hne _, hsplit,
      hdiff]

/-- Witness for C9 at a concrete secret, body, HMAC stand-in and mismatched
hash. -/
theorem C9_witness :
    (handlePost concatHmac "app-secret" "raw-body"
        ("sha1=" ++ concatHmac "app-secret" "raw-body") goodNotification
        (fun _ _ => .ok ())
      = handleAfterSignature (fun _ _ => .ok ()) goodNotification) ∧
    handlePost concatHmac "app-secret" "raw-body" ("sha1=" ++ "deadbeef")
        goodNotification (fun _ _ => .ok ())
      = .ok (.json500 "Could not match the request signature.", []) :=
  ⟨(C9_signature concatHmac "app-secret" "raw-body" goodNotification
      (fun _ _ => .ok ()) "deadbeef" (by decide) (by decide)).1,
    (C9_signature concatHmac "app-secret" "raw-body" goodNotification
      (fun _ _ => .ok ()) "deadbeef" (by decide) (by decide)).2 (by decide)⟩

end WhatsAppChannel
